import Mathlib

/-!
# Shared-memory proxy of waywall (`waywall/server/wl_shm.c`)

A shallow embedding of the request handlers of the `wl_shm` proxy.

* Pointers are natural-number handles; a `NULL` result is `none`.
* `int32_t` values are integers, and arithmetic on them is reduced to the
  `int32_t` range by `wrap32`; `uint32_t` values are naturals / integers
  reduced by `toUInt32`.
* Every call into a collaborator (libwayland server and client, libc) is
  recorded as an `Effect`, in program order. The result of a fallible
  collaborator call is an input of the handler (an "outcome").
-/

namespace Waywall

/-! ## Machine integers -/

/-- Reduction of an integer to the `int32_t` range (two-complement wraparound). -/
def wrap32 (x : Int) : Int := (x + 2147483648) % 4294967296 - 2147483648

/-- Conversion of an `int32_t` to `uint32_t`, as done by the assignments in
`shm_buffer_size`. -/
def toUInt32 (x : Int) : Int := x % 4294967296

/-- Membership in the `int32_t` range. -/
def isInt32 (x : Int) : Prop := -2147483648 ≤ x ∧ x ≤ 2147483647

instance (x : Int) : Decidable (isInt32 x) := by unfold isInt32; infer_instance

/-! ## Constants of the protocol headers -/

/-- Value of `SRV_SHM_VERSION`. -/
def SRV_SHM_VERSION : Nat := 1

/-- Value of `WL_SHM_ERROR_INVALID_FORMAT` in the protocol header. -/
def WL_SHM_ERROR_INVALID_FORMAT : Nat := 0

/-- Value of `WL_SHM_ERROR_INVALID_STRIDE` in the protocol header. -/
def WL_SHM_ERROR_INVALID_STRIDE : Nat := 1

/-! ## Data model -/

/-- Interfaces passed to `wl_resource_create`. -/
inductive Interface where
  | wl_shm_interface
  | wl_shm_pool_interface
  | wl_buffer_interface
  deriving DecidableEq, Repr

/-- Destructors registered with `wl_resource_set_implementation`. -/
inductive Destructor where
  | shm_pool_resource_destroy
  | shm_resource_destroy
  deriving DecidableEq, Repr

/-- The `struct shm_buffer_data`. -/
structure shm_buffer_data where
  width : Int
  height : Int
  deriving DecidableEq, Repr

/-- Modelled from the spec: the declaration of `struct server_shm_pool` is in
`server/wl_shm.h`, which is not among the sources. The fields are the ones
`wl_shm.c` reads and writes: the client-visible resource, the address of the
format array the pool validates against, the owned file descriptor, the
declared size, and the upstream pool. `fd` and `sz` are `int32_t`: they receive
the `int32_t` arguments of `shm_create_pool` and `shm_pool_resize`. -/
structure server_shm_pool where
  resource : Option Nat
  formats : Nat
  fd : Int
  sz : Int
  remote : Option Nat
  deriving DecidableEq, Repr

/-- Modelled from the spec: the declaration of `struct server_shm` is in
`server/wl_shm.h`, which is not among the sources. The fields are the ones the
handlers use: the global, the collection of live bound resources (a `wl_list`;
the first element here is the one right after the list head), the upstream
`wl_shm`, and the address of the format array of the backend. -/
structure server_shm where
  global : Nat
  objects : List Nat
  remote : Nat
  formats : Nat
  deriving DecidableEq, Repr

/-- Calls into collaborators, recorded in program order. -/
inductive Effect where
  /-- Call `wl_resource_post_error(resource, code, ...)`. -/
  | post_error (resource : Nat) (code : Nat)
  /-- Call `wl_resource_post_no_memory(resource)`. -/
  | post_no_memory (resource : Nat)
  /-- Call `wl_client_post_no_memory(client)`. -/
  | client_post_no_memory (client : Nat)
  /-- Successful `calloc` of a `struct shm_buffer_data`. -/
  | alloc_buffer_data
  /-- Call `free(buffer_data)`. -/
  | free_buffer_data
  /-- Successful `calloc` of a `struct server_shm_pool`. -/
  | alloc_pool
  /-- Call `free(shm_pool)`. -/
  | free_pool
  /-- Call of `wl_resource_create` that returned `resource`. -/
  | resource_create (resource : Nat) (iface : Interface)
  /-- Call `wl_resource_set_implementation(resource, ..., destroy)`. -/
  | set_implementation (resource : Nat) (destroy : Destructor)
  /-- Call `wl_resource_destroy(resource)`. -/
  | resource_destroy (resource : Nat)
  /-- Call of `wl_shm_create_pool(shm, fd, size)` that returned `remote`. -/
  | remote_create_pool (remote : Nat) (shm : Nat) (fd size : Int)
  /-- Call `wl_shm_pool_resize(remote, size)`. -/
  | remote_pool_resize (remote : Option Nat) (size : Int)
  /-- Call `wl_shm_pool_destroy(remote)`. -/
  | remote_pool_destroy (remote : Option Nat)
  /-- Call of `wl_shm_pool_create_buffer(pool, ...)` that returned `remote`. -/
  | remote_create_buffer (remote : Nat) (pool : Option Nat)
      (offset width height stride : Int) (format : Nat)
  /-- Call `wl_buffer_destroy(remote)`. -/
  | remote_buffer_destroy (remote : Nat)
  /-- Call of `server_buffer_create(resource, remote, &shm_buffer_impl, data)`
  that succeeded. -/
  | server_buffer_create (resource remote : Nat) (data : shm_buffer_data)
  /-- Call `close(fd)`. -/
  | close (fd : Int)
  /-- Call `wl_shm_send_format(resource, format)`. -/
  | send_format (resource : Nat) (format : Nat)
  deriving DecidableEq, Repr

/-! ## Buffers -/

/-- The function `shm_buffer_destroy`. -/
def shm_buffer_destroy (_data : shm_buffer_data) : List Effect :=
  [Effect.free_buffer_data]

/-- The function `shm_buffer_size`: returns the buffer data as it is after the
call, and the values stored through the two `uint32_t *` arguments. -/
def shm_buffer_size (data : shm_buffer_data) : shm_buffer_data × (Int × Int) :=
  (data, (toUInt32 data.width, toUInt32 data.height))

/-- `shm_buffer_size` called `n` times in a row on the same data: the data
after the last call and the list of reported pairs. -/
def shm_buffer_size_repeat : Nat → shm_buffer_data → shm_buffer_data × List (Int × Int)
  | 0, data => (data, [])
  | n + 1, data =>
    let r := shm_buffer_size data
    let rest := shm_buffer_size_repeat n r.1
    (rest.1, r.2 :: rest.2)

/-! ## Pools -/

/-- The function `shm_pool_resource_destroy`, run on the user data of the
resource. -/
def shm_pool_resource_destroy (shm_pool : server_shm_pool) : List Effect :=
  [Effect.remote_pool_destroy shm_pool.remote, Effect.close shm_pool.fd, Effect.free_pool]

/-- The `wl_array_for_each` loop of `shm_pool_create_buffer`: scans the format
array and stops at the first element equal to `format`. -/
def format_loop (format : Nat) : List Nat → Bool
  | [] => false
  | fmt :: rest => if fmt = format then true else format_loop format rest

/-- Results of the fallible collaborator calls of `shm_pool_create_buffer`:
the `calloc`, `wl_resource_create`, `wl_shm_pool_create_buffer` and
`server_buffer_create`. -/
structure create_buffer_outcomes where
  buffer_data : Bool
  buffer_resource : Option Nat
  remote : Option Nat
  buffer : Bool
  deriving DecidableEq, Repr

/-- The handler `shm_pool_create_buffer`. `arrays` gives the contents of the
`wl_array` at an address; `resource` is the pool resource and `shm_pool` its
user data. Returns the pool after the call and the effects of the call. -/
def shm_pool_create_buffer (arrays : Nat → List Nat) (shm_pool : server_shm_pool)
    (_client resource _id : Nat) (offset width height stride : Int) (format : Nat)
    (oc : create_buffer_outcomes) : server_shm_pool × List Effect :=
  if wrap32 (offset + wrap32 (width * stride)) > shm_pool.sz then
    (shm_pool, [Effect.post_error resource WL_SHM_ERROR_INVALID_STRIDE])
  else if !format_loop format (arrays shm_pool.formats) then
    (shm_pool, [Effect.post_error resource WL_SHM_ERROR_INVALID_FORMAT])
  else if !oc.buffer_data then
    (shm_pool, [Effect.post_no_memory resource])
  else
    let buffer_data : shm_buffer_data := { width := width, height := height }
    match oc.buffer_resource with
    | none =>
      (shm_pool, [Effect.alloc_buffer_data, Effect.post_no_memory resource,
        Effect.free_buffer_data])
    | some buffer_resource =>
      match oc.remote with
      | none =>
        (shm_pool, [Effect.alloc_buffer_data,
          Effect.resource_create buffer_resource Interface.wl_buffer_interface,
          Effect.post_no_memory buffer_resource, Effect.free_buffer_data])
      | some remote =>
        if !oc.buffer then
          (shm_pool, [Effect.alloc_buffer_data,
            Effect.resource_create buffer_resource Interface.wl_buffer_interface,
            Effect.remote_create_buffer remote shm_pool.remote offset width height stride format,
            Effect.post_no_memory buffer_resource, Effect.remote_buffer_destroy remote,
            Effect.free_buffer_data])
        else
          (shm_pool, [Effect.alloc_buffer_data,
            Effect.resource_create buffer_resource Interface.wl_buffer_interface,
            Effect.remote_create_buffer remote shm_pool.remote offset width height stride format,
            Effect.server_buffer_create buffer_resource remote buffer_data])

/-- The handler `shm_pool_destroy`. -/
def shm_pool_destroy (_client resource : Nat) : List Effect :=
  [Effect.resource_destroy resource]

/-- The handler `shm_pool_resize`. -/
def shm_pool_resize (shm_pool : server_shm_pool) (_client resource : Nat) (size : Int) :
    server_shm_pool × List Effect :=
  if size < shm_pool.sz then
    (shm_pool, [Effect.post_error resource WL_SHM_ERROR_INVALID_STRIDE])
  else
    ({ shm_pool with sz := size }, [Effect.remote_pool_resize shm_pool.remote size])

/-! ## The `wl_shm` global -/

/-- The destructor `shm_resource_destroy` of a bound `wl_shm` resource: its
body is empty, so the publisher is returned as it was. -/
def shm_resource_destroy (shm : server_shm) (_resource : Nat) : server_shm × List Effect :=
  (shm, [])

/-- Results of the fallible collaborator calls of `shm_create_pool`: the
`calloc`, `wl_resource_create` and `wl_shm_create_pool`. -/
structure create_pool_outcomes where
  shm_pool : Bool
  resource : Option Nat
  remote : Option Nat
  deriving DecidableEq, Repr

/-- What `shm_create_pool` leaves behind: its effects and, when it registered
a pool resource, that resource with the pool struct its user data points to
(the struct as last written, also on the path that frees it). -/
structure create_pool_result where
  effects : List Effect
  registered : Option (Nat × server_shm_pool)
  deriving DecidableEq, Repr

/-- The handler `shm_create_pool`. -/
def shm_create_pool (shm : server_shm) (_client resource _id : Nat) (fd size : Int)
    (oc : create_pool_outcomes) : create_pool_result :=
  if !oc.shm_pool then
    { effects := [Effect.post_no_memory resource], registered := none }
  else
    match oc.resource with
    | none =>
      { effects := [Effect.alloc_pool, Effect.post_no_memory resource, Effect.close fd,
          Effect.free_pool],
        registered := none }
    | some pool_resource =>
      match oc.remote with
      | none =>
        { effects := [Effect.alloc_pool,
            Effect.resource_create pool_resource Interface.wl_shm_pool_interface,
            Effect.set_implementation pool_resource Destructor.shm_pool_resource_destroy,
            Effect.post_no_memory pool_resource, Effect.close fd, Effect.free_pool],
          registered := some (pool_resource,
            { resource := some pool_resource, formats := shm.formats, fd := fd, sz := size,
              remote := none }) }
      | some remote =>
        { effects := [Effect.alloc_pool,
            Effect.resource_create pool_resource Interface.wl_shm_pool_interface,
            Effect.set_implementation pool_resource Destructor.shm_pool_resource_destroy,
            Effect.remote_create_pool remote shm.remote fd size],
          registered := some (pool_resource,
            { resource := some pool_resource, formats := shm.formats, fd := fd, sz := size,
              remote := some remote }) }

/-- The callback `on_global_bind`; `created` is the result of its
`wl_resource_create`. The macro `ww_assert` is declared in `util.h`, which is
not among the sources; a failed assertion ends the run, which is `none` here. -/
def on_global_bind (shm : server_shm) (client version _id : Nat) (created : Option Nat) :
    Option (server_shm × List Effect) :=
  if version ≤ SRV_SHM_VERSION then
    match created with
    | none => some (shm, [Effect.client_post_no_memory client])
    | some resource =>
      some ({ shm with objects := resource :: shm.objects },
        [Effect.resource_create resource Interface.wl_shm_interface,
         Effect.set_implementation resource Destructor.shm_resource_destroy])
  else none

/-- The `wl_resource_for_each` loop of `on_shm_format` over the bound
resources, first element of the list first. -/
def send_format_loop (format : Nat) : List Nat → List Effect
  | [] => []
  | resource :: rest => Effect.send_format resource format :: send_format_loop format rest

/-- The listener `on_shm_format`. -/
def on_shm_format (shm : server_shm) (format : Nat) : server_shm × List Effect :=
  (shm, send_format_loop format shm.objects)

/-- The constructor `server_shm_create`: `alloc` is the result of the `calloc`,
`global` the result of `wl_global_create`; the other arguments are the
backend's `wl_shm` and the address of its format array. -/
def server_shm_create (backend_shm backend_formats : Nat) (alloc : Bool)
    (global : Option Nat) : Option server_shm :=
  if !alloc then none
  else
    match global with
    | none => none
    | some g =>
      some { global := g, objects := [], remote := backend_shm, formats := backend_formats }

/-! ## Observations on effect lists -/

/-- Whether an effect is a protocol error (`wl_resource_post_error`). -/
def Effect.is_protocol_error : Effect → Bool
  | Effect.post_error _ _ => true
  | _ => false

/-- Whether an effect is an out-of-memory signal. -/
def Effect.is_no_memory : Effect → Bool
  | Effect.post_no_memory _ => true
  | Effect.client_post_no_memory _ => true
  | _ => false

/-- Whether an effect is a successful `server_buffer_create`. -/
def Effect.is_buffer_create : Effect → Bool
  | Effect.server_buffer_create _ _ _ => true
  | _ => false

/-- Whether an effect is a `close` of the descriptor `fd`. -/
def Effect.is_close (fd : Int) : Effect → Bool
  | Effect.close fd2 => decide (fd2 = fd)
  | _ => false

/-- Whether an effect is a resize forwarded to an upstream pool. -/
def Effect.is_remote_resize : Effect → Bool
  | Effect.remote_pool_resize _ _ => true
  | _ => false

/-- A request succeeded: it posted neither a protocol error nor an
out-of-memory signal, and a buffer was created. -/
def buffer_created (effects : List Effect) : Bool :=
  !effects.any Effect.is_protocol_error && !effects.any Effect.is_no_memory &&
    effects.any Effect.is_buffer_create

/-- Resources created by `wl_resource_create`, in order of creation. -/
def created_resources : List Effect → List Nat
  | [] => []
  | Effect.resource_create r _ :: rest => r :: created_resources rest
  | _ :: rest => created_resources rest

/-- Resources destroyed by `wl_resource_destroy`. -/
def destroyed_resources : List Effect → List Nat
  | [] => []
  | Effect.resource_destroy r :: rest => r :: destroyed_resources rest
  | _ :: rest => destroyed_resources rest

/-- Client-visible resources created and not destroyed by the effects. -/
def remaining_resources (effects : List Effect) : List Nat :=
  (created_resources effects).filter (fun r => !(destroyed_resources effects).contains r)

/-- Upstream buffers created by the effects. -/
def created_remote_buffers : List Effect → List Nat
  | [] => []
  | Effect.remote_create_buffer r _ _ _ _ _ _ :: rest => r :: created_remote_buffers rest
  | _ :: rest => created_remote_buffers rest

/-- Upstream buffers destroyed by the effects. -/
def destroyed_remote_buffers : List Effect → List Nat
  | [] => []
  | Effect.remote_buffer_destroy r :: rest => r :: destroyed_remote_buffers rest
  | _ :: rest => destroyed_remote_buffers rest

/-! ## Sequences of requests -/

/-- Effects of a `create_pool` request over the whole life of what it
created: the handler, then the destruction of the pool resource it left
registered, which runs the destructor `shm_pool_resource_destroy` on its user
data. -/
def create_pool_lifetime (shm : server_shm) (client resource id : Nat) (fd size : Int)
    (oc : create_pool_outcomes) : List Effect :=
  match (shm_create_pool shm client resource id fd size oc).registered with
  | none => (shm_create_pool shm client resource id fd size oc).effects
  | some (_, shm_pool) =>
    (shm_create_pool shm client resource id fd size oc).effects ++
      shm_pool_resource_destroy shm_pool

/-- A request on a pool, with the results of its fallible collaborator calls
and, for `create_buffer`, the memory of format arrays at the time of the call. -/
inductive pool_request where
  | create_buffer (arrays : Nat → List Nat) (client id : Nat)
      (offset width height stride : Int) (format : Nat) (oc : create_buffer_outcomes)
  | resize (client : Nat) (size : Int)

/-- Dispatch of one request on the pool resource `resource`. -/
def pool_dispatch (resource : Nat) (shm_pool : server_shm_pool) :
    pool_request → server_shm_pool × List Effect
  | pool_request.create_buffer arrays client id offset width height stride format oc =>
    shm_pool_create_buffer arrays shm_pool client resource id offset width height stride
      format oc
  | pool_request.resize client size => shm_pool_resize shm_pool client resource size

/-- The size of the pool after each request of a sequence, in order. -/
def pool_sizes (resource : Nat) (shm_pool : server_shm_pool) : List pool_request → List Int
  | [] => []
  | req :: rest =>
    (pool_dispatch resource shm_pool req).1.sz ::
      pool_sizes resource (pool_dispatch resource shm_pool req).1 rest

/-- One call of `on_global_bind`: its arguments and the result of its
`wl_resource_create`. -/
structure bind_call where
  client : Nat
  version : Nat
  id : Nat
  created : Option Nat
  deriving DecidableEq, Repr

/-- A sequence of `on_global_bind` calls on the publisher. -/
def bind_sequence (shm : server_shm) : List bind_call → Option (server_shm × List Effect)
  | [] => some (shm, [])
  | b :: rest =>
    match on_global_bind shm b.client b.version b.id b.created with
    | none => none
    | some r =>
      match bind_sequence r.1 rest with
      | none => none
      | some r2 => some (r2.1, r.2 ++ r2.2)

/-- A sequence of format-added events delivered to `on_shm_format`, in
emission order. -/
def format_events (shm : server_shm) : List Nat → server_shm × List Effect
  | [] => (shm, [])
  | format :: rest =>
    ((format_events (on_shm_format shm format).1 rest).1,
      (on_shm_format shm format).2 ++ (format_events (on_shm_format shm format).1 rest).2)

/-! ## Basic facts -/

theorem wrap32_of_isInt32 (x : Int) (h : isInt32 x) : wrap32 x = x := by
  unfold isInt32 at h
  unfold wrap32
  omega

theorem isInt32_wrap32 (x : Int) : isInt32 (wrap32 x) := by
  unfold isInt32 wrap32
  omega

theorem format_loop_iff_mem (format : Nat) (fmts : List Nat) :
    format_loop format fmts = true ↔ format ∈ fmts := by
  induction fmts with
  | nil => simp [format_loop]
  | cons fmt rest ih =>
    unfold format_loop
    by_cases h : fmt = format
    · simp [h]
    · have h2 : ¬ format = fmt := fun e => h e.symm
      simp [h, h2, ih]

/-- The pool struct is never written by `shm_pool_create_buffer`. -/
theorem shm_pool_create_buffer_pool (arrays : Nat → List Nat) (shm_pool : server_shm_pool)
    (client resource id : Nat) (offset width height stride : Int) (format : Nat)
    (oc : create_buffer_outcomes) :
    (shm_pool_create_buffer arrays shm_pool client resource id offset width height stride
      format oc).1 = shm_pool := by
  unfold shm_pool_create_buffer
  split_ifs <;> try rfl
  all_goals (split <;> try rfl)
  all_goals (split <;> try rfl)

/-- With every collaborator call succeeding, `shm_pool_create_buffer` creates
a buffer exactly when the bounds check as computed in `int32_t` arithmetic
passes and the format is in the array. -/
theorem shm_pool_create_buffer_created_iff (arrays : Nat → List Nat)
    (shm_pool : server_shm_pool) (client resource id : Nat)
    (offset width height stride : Int) (format : Nat) (buffer_resource remote : Nat) :
    buffer_created (shm_pool_create_buffer arrays shm_pool client resource id offset width
      height stride format ⟨true, some buffer_resource, some remote, true⟩).2 = true ↔
    (wrap32 (offset + wrap32 (width * stride)) ≤ shm_pool.sz ∧
      format ∈ arrays shm_pool.formats) := by
  rw [← format_loop_iff_mem]
  unfold shm_pool_create_buffer
  by_cases h1 : wrap32 (offset + wrap32 (width * stride)) > shm_pool.sz
  · have h1b : ¬ wrap32 (offset + wrap32 (width * stride)) ≤ shm_pool.sz := by omega
    simp [h1, h1b, buffer_created, Effect.is_protocol_error]
  · have h1b : wrap32 (offset + wrap32 (width * stride)) ≤ shm_pool.sz := by omega
    by_cases h2 : format_loop format (arrays shm_pool.formats) = true
    · simp [h1, h1b, h2, buffer_created, Effect.is_protocol_error, Effect.is_no_memory,
        Effect.is_buffer_create]
    · simp [h1, h2, buffer_created, Effect.is_protocol_error]

/-- Away from `int32_t` overflow the bounds check of `shm_pool_create_buffer`
is the comparison of the integer `offset + width*stride` with the size. -/
theorem shm_pool_create_buffer_created_iff_of_no_overflow (arrays : Nat → List Nat)
    (shm_pool : server_shm_pool) (client resource id : Nat)
    (offset width height stride : Int) (format : Nat) (buffer_resource remote : Nat)
    (hm : isInt32 (width * stride)) (ha : isInt32 (offset + width * stride)) :
    buffer_created (shm_pool_create_buffer arrays shm_pool client resource id offset width
      height stride format ⟨true, some buffer_resource, some remote, true⟩).2 = true ↔
    (offset + width * stride ≤ shm_pool.sz ∧ format ∈ arrays shm_pool.formats) := by
  rw [shm_pool_create_buffer_created_iff, wrap32_of_isInt32 _ hm, wrap32_of_isInt32 _ ha]

/-- The scenario of a 4096-byte pool: `create_buffer(0, 64, 32, 64, F)` with a
supported `F` creates a buffer. -/
theorem shm_pool_create_buffer_scenario :
    shm_pool_create_buffer (fun _ => [0, 1]) ⟨some 10, 0, 5, 4096, some 20⟩ 1 10 11 0 64 32 64 1
      ⟨true, some 30, some 40, true⟩ =
    (⟨some 10, 0, 5, 4096, some 20⟩,
      [Effect.alloc_buffer_data,
       Effect.resource_create 30 Interface.wl_buffer_interface,
       Effect.remote_create_buffer 40 (some 20) 0 64 32 64 1,
       Effect.server_buffer_create 30 40 ⟨64, 32⟩]) := by
  decide

/-- C1 (evaluation at the failing input): on a 4096-byte pool the request
`create_buffer(offset = 0, width = 65536, height = 1, stride = 65536, F)` with a
supported format `F` has the integer value `offset + width*stride = 2^32`, which
is greater than the pool size, and yet `shm_pool_create_buffer` posts no error
and creates the buffer, because the product wraps to 0 in `int32_t`. -/
theorem shm_pool_create_buffer_overflow_accepted :
    isInt32 0 ∧ isInt32 65536 ∧ isInt32 1 ∧
    ¬ ((0 : Int) + 65536 * 65536 ≤ 4096) ∧
    (1 : Nat) ∈ [0, 1] ∧
    shm_pool_create_buffer (fun _ => [0, 1]) ⟨some 10, 0, 5, 4096, some 20⟩ 1 10 11
      0 65536 1 65536 1 ⟨true, some 30, some 40, true⟩ =
    (⟨some 10, 0, 5, 4096, some 20⟩,
      [Effect.alloc_buffer_data,
       Effect.resource_create 30 Interface.wl_buffer_interface,
       Effect.remote_create_buffer 40 (some 20) 0 65536 1 65536 1,
       Effect.server_buffer_create 30 40 ⟨65536, 1⟩]) ∧
    buffer_created (shm_pool_create_buffer (fun _ => [0, 1]) ⟨some 10, 0, 5, 4096, some 20⟩
      1 10 11 0 65536 1 65536 1 ⟨true, some 30, some 40, true⟩).2 = true := by
  decide

/-- A request whose bounds expression, as computed in `int32_t` arithmetic,
exceeds the pool size is rejected with one `InvalidStride` error and nothing
else happens. -/
theorem shm_pool_create_buffer_stride_rejected (arrays : Nat → List Nat)
    (shm_pool : server_shm_pool) (client resource id : Nat)
    (offset width height stride : Int) (format : Nat) (oc : create_buffer_outcomes)
    (h : wrap32 (offset + wrap32 (width * stride)) > shm_pool.sz) :
    shm_pool_create_buffer arrays shm_pool client resource id offset width height stride
      format oc = (shm_pool, [Effect.post_error resource WL_SHM_ERROR_INVALID_STRIDE]) := by
  unfold shm_pool_create_buffer
  simp [h]

/-- The `InvalidStride` error is posted by `shm_pool_create_buffer` exactly
when the bounds expression, as computed in `int32_t` arithmetic, exceeds the
pool size. -/
theorem shm_pool_create_buffer_stride_error_iff (arrays : Nat → List Nat)
    (shm_pool : server_shm_pool) (client resource id : Nat)
    (offset width height stride : Int) (format : Nat) (oc : create_buffer_outcomes) :
    Effect.post_error resource WL_SHM_ERROR_INVALID_STRIDE ∈
      (shm_pool_create_buffer arrays shm_pool client resource id offset width height stride
        format oc).2 ↔
    wrap32 (offset + wrap32 (width * stride)) > shm_pool.sz := by
  unfold shm_pool_create_buffer
  by_cases hb : wrap32 (offset + wrap32 (width * stride)) > shm_pool.sz
  · simp [hb]
  · obtain ⟨bd, br, rem, b⟩ := oc
    cases hfl : format_loop format (arrays shm_pool.formats) <;> cases bd <;> cases br <;>
      cases rem <;> cases b <;>
      simp [hb, hfl, WL_SHM_ERROR_INVALID_STRIDE, WL_SHM_ERROR_INVALID_FORMAT]

/-- The scenario of a 4096-byte pool: `create_buffer(0, 65, 32, 64, F)` is
rejected with `InvalidStride`, and `create_buffer(0, 64, 32, 64, F)` on the pool
it returns creates a buffer. -/
theorem shm_pool_create_buffer_stride_scenario :
    shm_pool_create_buffer (fun _ => [0, 1]) ⟨some 10, 0, 5, 4096, some 20⟩ 1 10 11 0 65 32 64 1
      ⟨true, some 30, some 40, true⟩ =
      (⟨some 10, 0, 5, 4096, some 20⟩, [Effect.post_error 10 WL_SHM_ERROR_INVALID_STRIDE]) ∧
    buffer_created (shm_pool_create_buffer (fun _ => [0, 1])
      (shm_pool_create_buffer (fun _ => [0, 1]) ⟨some 10, 0, 5, 4096, some 20⟩ 1 10 11 0 65 32 64 1
        ⟨true, some 30, some 40, true⟩).1 1 10 12 0 64 32 64 1
      ⟨true, some 31, some 41, true⟩).2 = true := by
  decide

/-- C5 (evaluation at the failing input): on a 4096-byte pool the request
`create_buffer(offset = 0, width = 46341, height = 1, stride = 46341, F)` has
`offset + width*stride = 2147488281`, greater than the pool size, and yet
`shm_pool_create_buffer` posts no `InvalidStride` error and creates both the
client-visible and the upstream buffer: the product wraps to a negative
`int32_t`. -/
theorem shm_pool_create_buffer_overflow_not_rejected :
    isInt32 0 ∧ isInt32 46341 ∧ isInt32 1 ∧
    (0 : Int) + 46341 * 46341 > 4096 ∧
    Effect.post_error 10 WL_SHM_ERROR_INVALID_STRIDE ∉
      (shm_pool_create_buffer (fun _ => [0, 1]) ⟨some 10, 0, 5, 4096, some 20⟩ 1 10 11
        0 46341 1 46341 1 ⟨true, some 30, some 40, true⟩).2 ∧
    created_resources (shm_pool_create_buffer (fun _ => [0, 1]) ⟨some 10, 0, 5, 4096, some 20⟩
      1 10 11 0 46341 1 46341 1 ⟨true, some 30, some 40, true⟩).2 = [30] ∧
    created_remote_buffers (shm_pool_create_buffer (fun _ => [0, 1])
      ⟨some 10, 0, 5, 4096, some 20⟩ 1 10 11 0 46341 1 46341 1
      ⟨true, some 30, some 40, true⟩).2 = [40] := by
  decide

/-- C2: `shm_pool_resize(n)` posts a protocol error exactly when `n` is less
than the current size; then the pool is unchanged and nothing is forwarded
upstream. Otherwise the size becomes `n` (other fields unchanged), exactly one
resize to `n` is forwarded to the upstream pool, and a following
`create_buffer` is rejected for its bounds exactly when its bounds expression
exceeds `n`. -/
theorem shm_pool_resize_spec (arrays : Nat → List Nat) (shm_pool : server_shm_pool)
    (client resource : Nat) (n : Int) :
    (((shm_pool_resize shm_pool client resource n).2.any Effect.is_protocol_error = true) ↔
      n < shm_pool.sz) ∧
    (n < shm_pool.sz →
      shm_pool_resize shm_pool client resource n =
        (shm_pool, [Effect.post_error resource WL_SHM_ERROR_INVALID_STRIDE]) ∧
      (shm_pool_resize shm_pool client resource n).1.sz = shm_pool.sz ∧
      (shm_pool_resize shm_pool client resource n).2.countP Effect.is_remote_resize = 0) ∧
    (¬ n < shm_pool.sz →
      shm_pool_resize shm_pool client resource n =
        ({ shm_pool with sz := n }, [Effect.remote_pool_resize shm_pool.remote n]) ∧
      (shm_pool_resize shm_pool client resource n).1.sz = n ∧
      (shm_pool_resize shm_pool client resource n).2.countP Effect.is_remote_resize = 1 ∧
      ∀ (client2 resource2 id : Nat) (offset width height stride : Int) (format : Nat)
        (oc : create_buffer_outcomes),
        ((Effect.post_error resource2 WL_SHM_ERROR_INVALID_STRIDE ∈
          (shm_pool_create_buffer arrays (shm_pool_resize shm_pool client resource n).1
            client2 resource2 id offset width height stride format oc).2) ↔
          wrap32 (offset + wrap32 (width * stride)) > n)) := by
  by_cases h : n < shm_pool.sz
  · simp [shm_pool_resize, h, Effect.is_protocol_error, Effect.is_remote_resize]
  · have hr : shm_pool_resize shm_pool client resource n =
        ({ shm_pool with sz := n }, [Effect.remote_pool_resize shm_pool.remote n]) := by
      simp [shm_pool_resize, h]
    rw [hr]
    refine ⟨by simp [h, Effect.is_protocol_error], fun h2 => absurd h2 h, fun _ => ?_⟩
    refine ⟨rfl, rfl, by simp [Effect.is_remote_resize], ?_⟩
    intro client2 resource2 id offset width height stride format oc
    exact shm_pool_create_buffer_stride_error_iff arrays _ client2 resource2 id offset width
      height stride format oc

/-- The scenario `resize(2048)` on a pool of size 4096: an error is posted and
the size stays 4096; `resize(8192)` is forwarded and the size becomes 8192. -/
theorem shm_pool_resize_scenario :
    shm_pool_resize ⟨some 10, 0, 5, 4096, some 20⟩ 1 10 2048 =
      (⟨some 10, 0, 5, 4096, some 20⟩, [Effect.post_error 10 WL_SHM_ERROR_INVALID_STRIDE]) ∧
    shm_pool_resize ⟨some 10, 0, 5, 4096, some 20⟩ 1 10 8192 =
      (⟨some 10, 0, 5, 8192, some 20⟩, [Effect.remote_pool_resize (some 20) 8192]) := by
  decide

/-- C4 (counterexample): on a 4096-byte pool, `create_buffer(0, 65, 32, 64, 7)`
with the unsupported format 7 fails with `InvalidStride`, and no
`InvalidFormat` error is posted. -/
theorem shm_pool_create_buffer_invalid_format_counterexample :
    (7 : Nat) ∉ [0, 1] ∧
    shm_pool_create_buffer (fun _ => [0, 1]) ⟨some 10, 0, 5, 4096, some 20⟩ 1 10 11 0 65 32 64 7
      ⟨true, some 30, some 40, true⟩ =
      (⟨some 10, 0, 5, 4096, some 20⟩, [Effect.post_error 10 WL_SHM_ERROR_INVALID_STRIDE]) ∧
    Effect.post_error 10 WL_SHM_ERROR_INVALID_FORMAT ∉
      (shm_pool_create_buffer (fun _ => [0, 1]) ⟨some 10, 0, 5, 4096, some 20⟩ 1 10 11
        0 65 32 64 7 ⟨true, some 30, some 40, true⟩).2 := by
  decide

/-- C4 (amended): a `create_buffer` request whose format is not in the pool's
format array posts exactly one protocol error and nothing else: `InvalidFormat`
when the request passes the bounds check, `InvalidStride` when it does not. In
both cases no buffer, no client-visible resource and no upstream buffer is
created, and the pool is unchanged. -/
theorem shm_pool_create_buffer_invalid_format (arrays : Nat → List Nat)
    (shm_pool : server_shm_pool) (client resource id : Nat)
    (offset width height stride : Int) (format : Nat) (oc : create_buffer_outcomes)
    (hf : format ∉ arrays shm_pool.formats) :
    shm_pool_create_buffer arrays shm_pool client resource id offset width height stride
      format oc =
      (shm_pool, [Effect.post_error resource
        (if wrap32 (offset + wrap32 (width * stride)) ≤ shm_pool.sz
          then WL_SHM_ERROR_INVALID_FORMAT else WL_SHM_ERROR_INVALID_STRIDE)]) ∧
    (shm_pool_create_buffer arrays shm_pool client resource id offset width height stride
      format oc).2.any Effect.is_buffer_create = false ∧
    created_resources (shm_pool_create_buffer arrays shm_pool client resource id offset width
      height stride format oc).2 = [] ∧
    created_remote_buffers (shm_pool_create_buffer arrays shm_pool client resource id offset
      width height stride format oc).2 = [] := by
  have hl : format_loop format (arrays shm_pool.formats) = false := by
    rw [← Bool.not_eq_true, format_loop_iff_mem]
    exact hf
  unfold shm_pool_create_buffer
  by_cases hb : wrap32 (offset + wrap32 (width * stride)) > shm_pool.sz
  · have hb2 : ¬ wrap32 (offset + wrap32 (width * stride)) ≤ shm_pool.sz := by omega
    simp [hb, hb2, Effect.is_buffer_create, created_resources, created_remote_buffers]
  · have hb2 : wrap32 (offset + wrap32 (width * stride)) ≤ shm_pool.sz := by omega
    simp [hb, hb2, hl, Effect.is_buffer_create, created_resources, created_remote_buffers]

theorem shm_pool_create_buffer_invalid_format_witness :
    (7 : Nat) ∉ (fun _ => [0, 1] : Nat → List Nat) 0 ∧
    shm_pool_create_buffer (fun _ => [0, 1]) ⟨some 10, 0, 5, 4096, some 20⟩ 1 10 11 0 64 32 64 7
      ⟨true, some 30, some 40, true⟩ =
      (⟨some 10, 0, 5, 4096, some 20⟩, [Effect.post_error 10 WL_SHM_ERROR_INVALID_FORMAT]) :=
  ⟨by decide,
   (shm_pool_create_buffer_invalid_format (fun _ => [0, 1]) ⟨some 10, 0, 5, 4096, some 20⟩
      1 10 11 0 64 32 64 7 ⟨true, some 30, some 40, true⟩ (by decide)).1⟩

/-- The four paths of `shm_create_pool` followed by the destruction of the
registered resource: the descriptor is closed 0 times when the pool
allocation fails, once when the resource creation fails, twice when the
upstream pool creation fails (the handler closes it and the destructor that
stays registered closes it again), and once on success. -/
theorem create_pool_lifetime_close_counts (shm : server_shm)
    (client resource id : Nat) (fd size : Int) (pool_resource remote : Nat)
    (r : Option Nat) (m : Option Nat) :
    (create_pool_lifetime shm client resource id fd size ⟨false, r, m⟩).countP
      (Effect.is_close fd) = 0 ∧
    (create_pool_lifetime shm client resource id fd size ⟨true, none, m⟩).countP
      (Effect.is_close fd) = 1 ∧
    (create_pool_lifetime shm client resource id fd size ⟨true, some pool_resource, none⟩).countP
      (Effect.is_close fd) = 2 ∧
    (create_pool_lifetime shm client resource id fd size
      ⟨true, some pool_resource, some remote⟩).countP (Effect.is_close fd) = 1 ∧
    (shm_create_pool shm client resource id fd size
      ⟨true, some pool_resource, some remote⟩).effects.countP (Effect.is_close fd) = 0 := by
  simp [create_pool_lifetime, shm_create_pool, shm_pool_resource_destroy, Effect.is_close,
    List.countP_cons]

/-- C3 (evaluation at the failing input): a `create_pool` request with
descriptor 5 whose pool allocation fails posts the out-of-memory signal and
returns; it registers no resource, and over the whole life of the request the
descriptor is closed 0 times. -/
theorem shm_create_pool_alloc_failure_leaks_fd :
    shm_create_pool ⟨1, [], 2, 0⟩ 1 3 11 5 4096 ⟨false, some 30, some 40⟩ =
      ⟨[Effect.post_no_memory 3], none⟩ ∧
    create_pool_lifetime ⟨1, [], 2, 0⟩ 1 3 11 5 4096 ⟨false, some 30, some 40⟩ =
      [Effect.post_no_memory 3] ∧
    (create_pool_lifetime ⟨1, [], 2, 0⟩ 1 3 11 5 4096 ⟨false, some 30, some 40⟩).countP
      (Effect.is_close 5) = 0 := by
  decide

/-- One request never decreases the size of the pool. -/
theorem pool_dispatch_size_le (resource : Nat) (shm_pool : server_shm_pool)
    (req : pool_request) : shm_pool.sz ≤ (pool_dispatch resource shm_pool req).1.sz := by
  cases req with
  | create_buffer arrays client id offset width height stride format oc =>
    simp [pool_dispatch, shm_pool_create_buffer_pool]
  | resize client size =>
    unfold pool_dispatch shm_pool_resize
    by_cases h : size < shm_pool.sz
    · simp [h]
    · simp only [h, if_false]
      omega

/-- Sizes along a sequence of requests form a non-decreasing chain. -/
theorem pool_sizes_chain (resource : Nat) (reqs : List pool_request) :
    ∀ shm_pool : server_shm_pool,
      List.Chain (fun a b => a ≤ b) shm_pool.sz (pool_sizes resource shm_pool reqs) := by
  induction reqs with
  | nil => intro shm_pool; exact List.Chain.nil
  | cons req rest ih =>
    intro shm_pool
    exact List.Chain.cons (pool_dispatch_size_le resource shm_pool req) (ih _)

/-- Every size along a sequence of requests is at least the initial one. -/
theorem pool_sizes_ge (resource : Nat) (reqs : List pool_request) :
    ∀ shm_pool : server_shm_pool, ∀ s ∈ pool_sizes resource shm_pool reqs, shm_pool.sz ≤ s := by
  induction reqs with
  | nil => intro shm_pool s hs; simp [pool_sizes] at hs
  | cons req rest ih =>
    intro shm_pool s hs
    have h1 := pool_dispatch_size_le resource shm_pool req
    simp only [pool_sizes, List.mem_cons] at hs
    rcases hs with hs | hs
    · rw [hs]; exact h1
    · exact le_trans h1 (ih _ s hs)

/-- C6: for the pool that `shm_create_pool` registers with size `s0` and every
finite sequence of `resize` and `create_buffer` requests on it, whatever their
arguments and outcomes, the size after each request is at least the size
before it (the sizes, starting from `s0`, form a non-decreasing chain), hence
every size is at least `s0`. -/
theorem pool_size_never_decreases (shm : server_shm) (client resource id : Nat)
    (fd s0 : Int) (oc : create_pool_outcomes) (pool_resource : Nat)
    (shm_pool : server_shm_pool)
    (hc : (shm_create_pool shm client resource id fd s0 oc).registered =
      some (pool_resource, shm_pool))
    (reqs : List pool_request) :
    shm_pool.sz = s0 ∧
    List.Chain (fun a b => a ≤ b) s0 (pool_sizes pool_resource shm_pool reqs) ∧
    ∀ s ∈ pool_sizes pool_resource shm_pool reqs, s0 ≤ s := by
  have hs : shm_pool.sz = s0 := by
    unfold shm_create_pool at hc
    obtain ⟨a, r, m⟩ := oc
    cases a <;> cases r <;> cases m <;> simp at hc
    · rw [← hc.2]
    · rw [← hc.2]
  refine ⟨hs, ?_, ?_⟩
  · rw [← hs]; exact pool_sizes_chain pool_resource reqs shm_pool
  · rw [← hs]; exact pool_sizes_ge pool_resource reqs shm_pool

theorem pool_size_never_decreases_witness :
    (⟨some 30, 0, 5, 4096, some 40⟩ : server_shm_pool).sz = 4096 ∧
    List.Chain (fun a b => a ≤ b) (4096 : Int)
      (pool_sizes 30 ⟨some 30, 0, 5, 4096, some 40⟩
        [pool_request.resize 1 2048, pool_request.resize 1 8192,
         pool_request.create_buffer (fun _ => [0, 1]) 1 12 0 65 32 64 1
           ⟨true, some 31, some 41, true⟩,
         pool_request.resize 1 (-7)]) ∧
    ∀ s ∈ pool_sizes 30 ⟨some 30, 0, 5, 4096, some 40⟩
        [pool_request.resize 1 2048, pool_request.resize 1 8192,
         pool_request.create_buffer (fun _ => [0, 1]) 1 12 0 65 32 64 1
           ⟨true, some 31, some 41, true⟩,
         pool_request.resize 1 (-7)], (4096 : Int) ≤ s :=
  pool_size_never_decreases ⟨1, [], 2, 0⟩ 1 3 11 5 4096 ⟨true, some 30, some 40⟩ 30
    ⟨some 30, 0, 5, 4096, some 40⟩ (by decide) _

/-- The sizes of the witness sequence: a shrinking resize leaves 4096, a
growing one gives 8192, and nothing after it lowers the size. -/
theorem pool_sizes_scenario :
    pool_sizes 30 ⟨some 30, 0, 5, 4096, some 40⟩
      [pool_request.resize 1 2048, pool_request.resize 1 8192,
       pool_request.create_buffer (fun _ => [0, 1]) 1 12 0 65 32 64 1
         ⟨true, some 31, some 41, true⟩,
       pool_request.resize 1 (-7)] = [4096, 8192, 8192, 8192] := by
  decide

/-- Repeated calls of `shm_buffer_size` leave the data as it was and report
the same pair every time. -/
theorem shm_buffer_size_repeat_eq (n : Nat) (data : shm_buffer_data) :
    shm_buffer_size_repeat n data =
      (data, List.replicate n (toUInt32 data.width, toUInt32 data.height)) := by
  induction n with
  | zero => rfl
  | succ k ih =>
    simp only [shm_buffer_size_repeat, shm_buffer_size, ih, List.replicate_succ]

/-- C7 (counterexample): on a 4096-byte pool `create_buffer(0, 64, -1, 64, F)`
with a supported format succeeds and records the height -1, and
`shm_buffer_size` on that data reports `(64, 4294967295)`, not `(64, -1)`. -/
theorem shm_buffer_size_counterexample :
    isInt32 64 ∧ isInt32 (-1) ∧
    shm_pool_create_buffer (fun _ => [0, 1]) ⟨some 10, 0, 5, 4096, some 20⟩ 1 10 11
      0 64 (-1) 64 1 ⟨true, some 30, some 40, true⟩ =
    (⟨some 10, 0, 5, 4096, some 20⟩,
      [Effect.alloc_buffer_data,
       Effect.resource_create 30 Interface.wl_buffer_interface,
       Effect.remote_create_buffer 40 (some 20) 0 64 (-1) 64 1,
       Effect.server_buffer_create 30 40 ⟨64, -1⟩]) ∧
    (shm_buffer_size ⟨64, -1⟩).2 = (64, 4294967295) ∧
    (shm_buffer_size ⟨64, -1⟩).2 ≠ (64, -1) := by
  decide

/-- C7 (amended): a `create_buffer` request that succeeds records exactly the
`width` and `height` of the request in the buffer data it hands to
`server_buffer_create`; `shm_buffer_size` on that data reports the pair
converted to `uint32_t`, that is `(width mod 2^32, height mod 2^32)`, which is
`(width, height)` exactly when neither is negative; and `shm_buffer_size` is a
pure read: it leaves the data as it was, and any number of calls report the
same pair. -/
theorem shm_buffer_size_of_created (arrays : Nat → List Nat) (shm_pool : server_shm_pool)
    (client resource id : Nat) (offset width height stride : Int) (format : Nat)
    (oc : create_buffer_outcomes)
    (h : buffer_created (shm_pool_create_buffer arrays shm_pool client resource id offset
      width height stride format oc).2 = true) :
    (∃ buffer_resource remote,
      (shm_pool_create_buffer arrays shm_pool client resource id offset width height stride
        format oc).2 =
        [Effect.alloc_buffer_data,
         Effect.resource_create buffer_resource Interface.wl_buffer_interface,
         Effect.remote_create_buffer remote shm_pool.remote offset width height stride format,
         Effect.server_buffer_create buffer_resource remote ⟨width, height⟩]) ∧
    (shm_buffer_size ⟨width, height⟩).2 = (width % 4294967296, height % 4294967296) ∧
    (isInt32 width → isInt32 height →
      ((shm_buffer_size ⟨width, height⟩).2 = (width, height) ↔ 0 ≤ width ∧ 0 ≤ height)) ∧
    (shm_buffer_size ⟨width, height⟩).1 = ⟨width, height⟩ ∧
    ∀ n : Nat, shm_buffer_size_repeat n ⟨width, height⟩ =
      (⟨width, height⟩, List.replicate n (width % 4294967296, height % 4294967296)) := by
  refine ⟨?_, rfl, ?_, rfl, fun n => shm_buffer_size_repeat_eq n ⟨width, height⟩⟩
  · unfold shm_pool_create_buffer at h ⊢
    obtain ⟨bd, br, rem, b⟩ := oc
    by_cases hb : wrap32 (offset + wrap32 (width * stride)) > shm_pool.sz
    · simp [hb, buffer_created, Effect.is_protocol_error] at h
    · cases hfl : format_loop format (arrays shm_pool.formats) <;> cases bd <;>
        cases br <;> cases rem <;> cases b <;>
        simp [hb, hfl, buffer_created, Effect.is_protocol_error, Effect.is_no_memory,
          Effect.is_buffer_create] at h ⊢
  · intro hw hh
    unfold isInt32 at hw hh
    simp only [shm_buffer_size, toUInt32, Prod.mk.injEq]
    constructor
    · rintro ⟨h1, h2⟩
      omega
    · rintro ⟨h1, h2⟩
      constructor <;> omega

theorem shm_buffer_size_of_created_witness :
    (shm_buffer_size ⟨64, 32⟩).2 = ((64 : Int) % 4294967296, (32 : Int) % 4294967296) ∧
    (isInt32 64 → isInt32 32 →
      ((shm_buffer_size ⟨64, 32⟩).2 = (64, 32) ↔ (0 : Int) ≤ 64 ∧ (0 : Int) ≤ 32)) :=
  ⟨(shm_buffer_size_of_created (fun _ => [0, 1]) ⟨some 10, 0, 5, 4096, some 20⟩ 1 10 11
      0 64 32 64 1 ⟨true, some 30, some 40, true⟩ (by decide)).2.1,
   (shm_buffer_size_of_created (fun _ => [0, 1]) ⟨some 10, 0, 5, 4096, some 20⟩ 1 10 11
      0 64 32 64 1 ⟨true, some 30, some 40, true⟩ (by decide)).2.2.1⟩

/-- The scenario of a 4096-byte pool: the buffer made by
`create_buffer(0, 64, 32, 64, F)` reports the size `(64, 32)`. -/
theorem shm_buffer_size_scenario : (shm_buffer_size ⟨64, 32⟩).2 = (64, 32) := by
  decide

/-- C8 (counterexample): a `create_buffer` request that passes both checks and
whose upstream buffer creation fails returns with the client-visible buffer
resource 30 created and not destroyed. -/
theorem shm_pool_create_buffer_cleanup_counterexample :
    shm_pool_create_buffer (fun _ => [0, 1]) ⟨some 10, 0, 5, 4096, some 20⟩ 1 10 11 0 64 32 64 1
      ⟨true, some 30, none, true⟩ =
    (⟨some 10, 0, 5, 4096, some 20⟩,
      [Effect.alloc_buffer_data,
       Effect.resource_create 30 Interface.wl_buffer_interface,
       Effect.post_no_memory 30,
       Effect.free_buffer_data]) ∧
    remaining_resources (shm_pool_create_buffer (fun _ => [0, 1]) ⟨some 10, 0, 5, 4096, some 20⟩
      1 10 11 0 64 32 64 1 ⟨true, some 30, none, true⟩).2 = [30] ∧
    remaining_resources (shm_pool_create_buffer (fun _ => [0, 1]) ⟨some 10, 0, 5, 4096, some 20⟩
      1 10 11 0 64 32 64 1 ⟨true, some 30, none, true⟩).2 ≠ [] := by
  decide

/-- C8 (amended): a `create_buffer` request that passes the bounds and format
checks and fails at one of its four fallible steps posts exactly one
out-of-memory signal and no protocol error, produces no `server_buffer`, frees
the buffer data exactly when it was allocated, and destroys the upstream
buffer exactly when it was created. A failure at the buffer-data allocation or
at the client-visible resource creation leaves no client-visible buffer
resource; a failure at the upstream buffer creation or at the `server_buffer`
wrapping leaves the client-visible buffer resource the call created in place
(`shm_pool_create_buffer` does not destroy it). The pool is unchanged. -/
theorem shm_pool_create_buffer_cleanup (arrays : Nat → List Nat)
    (shm_pool : server_shm_pool) (client resource id : Nat)
    (offset width height stride : Int) (format : Nat) (oc : create_buffer_outcomes)
    (hb : wrap32 (offset + wrap32 (width * stride)) ≤ shm_pool.sz)
    (hf : format ∈ arrays shm_pool.formats)
    (hfail : ¬ (oc.buffer_data = true ∧ oc.buffer_resource.isSome = true ∧
      oc.remote.isSome = true ∧ oc.buffer = true)) :
    (shm_pool_create_buffer arrays shm_pool client resource id offset width height stride
      format oc).1 = shm_pool ∧
    (shm_pool_create_buffer arrays shm_pool client resource id offset width height stride
      format oc).2.countP Effect.is_no_memory = 1 ∧
    (shm_pool_create_buffer arrays shm_pool client resource id offset width height stride
      format oc).2.any Effect.is_protocol_error = false ∧
    (shm_pool_create_buffer arrays shm_pool client resource id offset width height stride
      format oc).2.any Effect.is_buffer_create = false ∧
    (shm_pool_create_buffer arrays shm_pool client resource id offset width height stride
      format oc).2.count Effect.free_buffer_data =
      (shm_pool_create_buffer arrays shm_pool client resource id offset width height stride
        format oc).2.count Effect.alloc_buffer_data ∧
    (shm_pool_create_buffer arrays shm_pool client resource id offset width height stride
      format oc).2.count Effect.alloc_buffer_data = (if oc.buffer_data then 1 else 0) ∧
    destroyed_remote_buffers (shm_pool_create_buffer arrays shm_pool client resource id offset
      width height stride format oc).2 =
      created_remote_buffers (shm_pool_create_buffer arrays shm_pool client resource id offset
        width height stride format oc).2 ∧
    remaining_resources (shm_pool_create_buffer arrays shm_pool client resource id offset
      width height stride format oc).2 =
      (if oc.buffer_data then oc.buffer_resource.toList else []) := by
  have hl : format_loop format (arrays shm_pool.formats) = true :=
    (format_loop_iff_mem _ _).2 hf
  have hb2 : ¬ wrap32 (offset + wrap32 (width * stride)) > shm_pool.sz := by omega
  refine ⟨shm_pool_create_buffer_pool _ _ _ _ _ _ _ _ _ _ _, ?_⟩
  unfold shm_pool_create_buffer
  obtain ⟨bd, br, rem, b⟩ := oc
  cases bd <;> cases br <;> cases rem <;> cases b <;>
    simp [hb2, hl, Effect.is_no_memory, Effect.is_protocol_error, Effect.is_buffer_create,
      List.countP_cons, List.count_cons, destroyed_remote_buffers, created_remote_buffers,
      remaining_resources, created_resources, destroyed_resources] at hfail ⊢

theorem shm_pool_create_buffer_cleanup_witness :
    (shm_pool_create_buffer (fun _ => [0, 1]) ⟨some 10, 0, 5, 4096, some 20⟩ 1 10 11 0 64 32 64 1
      ⟨true, some 30, some 40, false⟩).2.countP Effect.is_no_memory = 1 ∧
    remaining_resources (shm_pool_create_buffer (fun _ => [0, 1]) ⟨some 10, 0, 5, 4096, some 20⟩
      1 10 11 0 64 32 64 1 ⟨true, some 30, some 40, false⟩).2 = [30] :=
  ⟨(shm_pool_create_buffer_cleanup (fun _ => [0, 1]) ⟨some 10, 0, 5, 4096, some 20⟩ 1 10 11
      0 64 32 64 1 ⟨true, some 30, some 40, false⟩ (by decide) (by decide) (by decide)).2.1,
   (shm_pool_create_buffer_cleanup (fun _ => [0, 1]) ⟨some 10, 0, 5, 4096, some 20⟩ 1 10 11
      0 64 32 64 1 ⟨true, some 30, some 40, false⟩ (by decide) (by decide) (by decide)).2.2.2.2.2.2.2⟩

/-- The loop of `on_shm_format` sends the format once to each element of the
list, in list order. -/
theorem send_format_loop_eq_map (format : Nat) (objects : List Nat) :
    send_format_loop format objects = objects.map (fun r => Effect.send_format r format) := by
  induction objects with
  | nil => rfl
  | cons r rest ih => simp [send_format_loop, ih]

/-- A format event leaves the publisher as it was, so a sequence of events
produces the effects of each event, one after the other. -/
theorem format_events_eq (shm : server_shm) (formats : List Nat) :
    format_events shm formats =
      (shm, formats.flatMap (fun f => (on_shm_format shm f).2)) := by
  induction formats with
  | nil => rfl
  | cons f rest ih =>
    have h1 : (on_shm_format shm f).1 = shm := rfl
    simp only [format_events, h1, ih, List.flatMap_cons]

/-- A successful bind puts exactly the new resource at the front of the list;
a bind whose resource creation fails leaves the list as it was. -/
theorem on_global_bind_objects (shm : server_shm) (client version id : Nat)
    (hv : version ≤ SRV_SHM_VERSION) :
    (∀ resource : Nat, on_global_bind shm client version id (some resource) =
      some ({ shm with objects := resource :: shm.objects },
        [Effect.resource_create resource Interface.wl_shm_interface,
         Effect.set_implementation resource Destructor.shm_resource_destroy])) ∧
    on_global_bind shm client version id none =
      some (shm, [Effect.client_post_no_memory client]) := by
  simp [on_global_bind, hv]

/-- A sequence of successful binds that create the resources `rs` returns, and
the list of bound resources becomes `rs` reversed in front of what it was. -/
theorem bind_sequence_objects (binds : List bind_call) :
    ∀ (rs : List Nat) (shm : server_shm),
      (∀ b ∈ binds, b.version ≤ SRV_SHM_VERSION) →
      binds.map (fun b => b.created) = rs.map some →
      ∃ effects, bind_sequence shm binds =
        some ({ shm with objects := rs.reverse ++ shm.objects }, effects) := by
  induction binds with
  | nil =>
    intro rs shm _ hc
    cases rs with
    | nil => exact ⟨[], rfl⟩
    | cons r rest => simp at hc
  | cons b rest ih =>
    intro rs shm hv hc
    cases rs with
    | nil => simp at hc
    | cons r rs2 =>
      simp only [List.map_cons, List.cons.injEq] at hc
      have hvb : b.version ≤ SRV_SHM_VERSION := hv b (List.mem_cons_self _ _)
      have hvr : ∀ b2 ∈ rest, b2.version ≤ SRV_SHM_VERSION :=
        fun b2 h2 => hv b2 (List.mem_cons_of_mem _ h2)
      obtain ⟨eff, he⟩ := ih rs2 { shm with objects := r :: shm.objects } hvr hc.2
      refine ⟨[Effect.resource_create r Interface.wl_shm_interface,
        Effect.set_implementation r Destructor.shm_resource_destroy] ++ eff, ?_⟩
      simp only [bind_sequence, hc.1, (on_global_bind_objects shm b.client b.version b.id hvb).1 r,
        he]
      simp

/-- C9: after a publisher is created and `N` binds succeed, creating the
pairwise distinct resources `rs`, the list of bound resources holds exactly
those `N` resources, and every format-added event with format `f` leaves the
publisher unchanged and sends `f` once to each of them and to nothing else
(nothing at all for `N = 0`); a sequence of events produces the sends of the
first event to every instance, then those of the second, and so on. -/
theorem on_shm_format_notifies_all (backend_shm backend_formats : Nat) (alloc : Bool)
    (global : Option Nat) (shm0 : server_shm)
    (h0 : server_shm_create backend_shm backend_formats alloc global = some shm0)
    (binds : List bind_call) (rs : List Nat)
    (hv : ∀ b ∈ binds, b.version ≤ SRV_SHM_VERSION)
    (hc : binds.map (fun b => b.created) = rs.map some)
    (hd : rs.Nodup) :
    ∃ shm effects, bind_sequence shm0 binds = some (shm, effects) ∧
      shm.objects = rs.reverse ∧
      shm.objects.length = binds.length ∧
      (∀ format : Nat,
        (on_shm_format shm format).1 = shm ∧
        (on_shm_format shm format).2 =
          rs.reverse.map (fun r => Effect.send_format r format) ∧
        (on_shm_format shm format).2.length = binds.length ∧
        (∀ r ∈ rs, (on_shm_format shm format).2.count (Effect.send_format r format) = 1) ∧
        (∀ e ∈ (on_shm_format shm format).2, ∃ r ∈ rs, e = Effect.send_format r format)) ∧
      ∀ formats : List Nat,
        format_events shm formats =
          (shm, formats.flatMap
            (fun f => rs.reverse.map (fun r => Effect.send_format r f))) := by
  have hobj : shm0.objects = [] := by
    unfold server_shm_create at h0
    cases alloc <;> cases global <;> simp at h0
    rw [← h0]
  obtain ⟨effects, he⟩ := bind_sequence_objects binds rs shm0 hv hc
  have hlen : rs.length = binds.length := by
    have := congrArg List.length hc
    simpa using this.symm
  have hsend : ∀ format : Nat,
      (on_shm_format { shm0 with objects := rs.reverse ++ shm0.objects } format).2 =
        rs.reverse.map (fun r => Effect.send_format r format) := by
    intro format
    simp [on_shm_format, send_format_loop_eq_map, hobj]
  refine ⟨_, effects, he, by simp [hobj], by simp [hobj, hlen], ?_, ?_⟩
  · intro format
    refine ⟨rfl, hsend format, by simp [hsend format, hlen], ?_, ?_⟩
    · intro r hr
      rw [hsend format]
      have hinj : Function.Injective (fun r : Nat => Effect.send_format r format) := by
        intro a b hab
        simpa using hab
      rw [List.count_map_of_injective _ _ hinj, List.count_reverse]
      exact List.count_eq_one_of_mem hd hr
    · intro e hm
      rw [hsend format] at hm
      obtain ⟨r, hr, hre⟩ := List.mem_map.1 hm
      exact ⟨r, List.mem_reverse.1 hr, hre.symm⟩
  · intro formats
    rw [format_events_eq]
    congr 1
    congr 1
    funext f
    exact hsend f

theorem on_shm_format_notifies_all_witness :
    ∃ shm effects,
      bind_sequence ⟨1, [], 2, 0⟩ [⟨7, 1, 3, some 30⟩, ⟨8, 1, 3, some 31⟩] =
        some (shm, effects) ∧
      shm.objects = [30, 31].reverse ∧
      shm.objects.length = [(⟨7, 1, 3, some 30⟩ : bind_call), ⟨8, 1, 3, some 31⟩].length ∧
      (∀ format : Nat,
        (on_shm_format shm format).1 = shm ∧
        (on_shm_format shm format).2 =
          [30, 31].reverse.map (fun r => Effect.send_format r format) ∧
        (on_shm_format shm format).2.length =
          [(⟨7, 1, 3, some 30⟩ : bind_call), ⟨8, 1, 3, some 31⟩].length ∧
        (∀ r ∈ [30, 31], (on_shm_format shm format).2.count (Effect.send_format r format) = 1) ∧
        (∀ e ∈ (on_shm_format shm format).2,
          ∃ r ∈ [30, 31], e = Effect.send_format r format)) ∧
      ∀ formats : List Nat,
        format_events shm formats =
          (shm, formats.flatMap
            (fun f => [30, 31].reverse.map (fun r => Effect.send_format r f))) :=
  on_shm_format_notifies_all 2 0 true (some 1) ⟨1, [], 2, 0⟩ (by decide)
    [⟨7, 1, 3, some 30⟩, ⟨8, 1, 3, some 31⟩] [30, 31] (by decide) (by decide) (by decide)

/-- Two binds followed by two format events: each event reaches both
instances once, the first event before the second. -/
theorem format_events_scenario :
    bind_sequence ⟨1, [], 2, 0⟩ [⟨7, 1, 3, some 30⟩, ⟨8, 1, 3, some 31⟩] =
      some (⟨1, [31, 30], 2, 0⟩,
        [Effect.resource_create 30 Interface.wl_shm_interface,
         Effect.set_implementation 30 Destructor.shm_resource_destroy,
         Effect.resource_create 31 Interface.wl_shm_interface,
         Effect.set_implementation 31 Destructor.shm_resource_destroy]) ∧
    format_events ⟨1, [31, 30], 2, 0⟩ [5, 6] =
      (⟨1, [31, 30], 2, 0⟩,
        [Effect.send_format 31 5, Effect.send_format 30 5,
         Effect.send_format 31 6, Effect.send_format 30 6]) := by
  decide

/-- C10 (evaluation at the failing input): a publisher is created, one bind
succeeds and creates the resource 30, and the resource is destroyed, which
runs `shm_resource_destroy`. The list of bound resources still holds 30 after
the destructor, and the format-added event that follows is sent to 30. -/
theorem shm_resource_destroy_keeps_instance :
    server_shm_create 2 0 true (some 1) = some ⟨1, [], 2, 0⟩ ∧
    on_global_bind ⟨1, [], 2, 0⟩ 7 1 3 (some 30) =
      some (⟨1, [30], 2, 0⟩,
        [Effect.resource_create 30 Interface.wl_shm_interface,
         Effect.set_implementation 30 Destructor.shm_resource_destroy]) ∧
    shm_resource_destroy ⟨1, [30], 2, 0⟩ 30 = (⟨1, [30], 2, 0⟩, []) ∧
    30 ∈ (shm_resource_destroy ⟨1, [30], 2, 0⟩ 30).1.objects ∧
    on_shm_format (shm_resource_destroy ⟨1, [30], 2, 0⟩ 30).1 9 =
      (⟨1, [30], 2, 0⟩, [Effect.send_format 30 9]) := by
  decide

end Waywall
